import Mathlib

/-!
Shallow embedding of `src/decoder/mod.rs` of the rodio repository: the
format-sniffing decoder facade.  The facade owns the probing order
(WAV, then FLAC, then Vorbis), wraps the winning format decoder in a
tagged union, and forwards the sample-iteration (`Iterator`) and
stream-metadata (`Source`) contracts to the active variant.

The per-format decoders (`wav::WavDecoder`, `flac::FlacDecoder`,
`vorbis::VorbisDecoder`) are external collaborators not present in the
repository slice; they are modelled abstractly: a probe is a function
`R → Except R σ` (`Ok(decoder)` on acceptance, `Err(data)` returning the
byte source on rejection, exactly the Rust signature
`fn new(data: R) -> Result<Self, R>` implied by the match arms), and a
constructed decoder of state type `σ` exposes the `Iterator`/`Source`
capability surface through a record of functions `SourceOps σ`.

Rust `cfg` feature gates are modelled by a `Features` record of three
Booleans; a statement under `#[cfg(feature = "x")]` is present exactly
when the corresponding flag is `true`.  The build with no format
features compiled in has its own type (`Decoder` is then a
`PhantomData` newtype with separate `Iterator`/`Source` impls); it is
embedded separately as `DecoderNF`.
-/

/-- A decoded audio sample, `i16` in the source.  Sample values are
produced by the abstract format decoders and merely forwarded by the
facade, so they are modelled as integers. -/
abbrev Sample := Int

/-- `std::time::Duration`, used only as an opaque value forwarded from
the active decoder; modelled as nanoseconds.  `Duration::default()` is
`0`. -/
abbrev Duration := Nat

/-- The `Iterator` + `Source` capability surface of one constructed
format decoder with state type `σ`: `next` (`&mut self`, so it returns
the sample and the successor state), `size_hint`, and the four
stream-metadata accessors (`&self`, pure). -/
structure SourceOps (σ : Type) where
  next : σ → Option Sample × σ
  sizeHint : σ → Nat × Option Nat
  currentFrameLen : σ → Option Nat
  channels : σ → Nat
  samplesRate : σ → Nat
  totalDuration : σ → Option Duration

/-- Which format features are compiled into the build
(`feature = "wav"`, `feature = "flac"`, `feature = "vorbis"`). -/
structure Features where
  wav : Bool
  flac : Bool
  vorbis : Bool

/-- `enum DecoderImpl<R>` (src/decoder/mod.rs, lines 26-36): the tagged
union over the compiled-in formats.  `W`, `F`, `V` are the state types
of the three external format decoders. -/
inductive DecoderImpl (W F V : Type) where
  | Wav : W → DecoderImpl W F V
  | Vorbis : V → DecoderImpl W F V
  | Flac : F → DecoderImpl W F V

/-- `pub struct Decoder<R>(DecoderImpl<R>)` (line 21), the feature
build's newtype around the tagged union. -/
structure Decoder (W F V : Type) where
  impl : DecoderImpl W F V

/-- `pub enum DecoderError` (lines 179-182): the single-variant
construction error. -/
inductive DecoderError where
  | UnrecognizedFormat : DecoderError
deriving DecidableEq

/-- The external format modules the facade delegates to: one probe
(`XxxDecoder::new`) and one capability record per format. -/
structure FormatModules (R W F V : Type) where
  wavNew : R → Except R W
  flacNew : R → Except R F
  vorbisNew : R → Except R V
  wavOps : SourceOps W
  flacOps : SourceOps F
  vorbisOps : SourceOps V

/-- The Vorbis stage of `Decoder::new` (lines 62-70): the final
`#[cfg(feature = "vorbis")] let data = match vorbis::VorbisDecoder::new(data)`
statement followed by `Err(DecoderError::UnrecognizedFormat)`.  When the
feature is off the statement is absent and construction falls through to
the error. -/
def Decoder.newStageVorbis {R W F V : Type} (cfg : Features)
    (M : FormatModules R W F V) (data : R) :
    Except DecoderError (Decoder W F V) :=
  if cfg.vorbis then
    match M.vorbisNew data with
    | .error _ => .error .UnrecognizedFormat
    | .ok decoder => .ok ⟨DecoderImpl.Vorbis decoder⟩
  else
    .error .UnrecognizedFormat

/-- The FLAC stage of `Decoder::new` (lines 54-60):
`#[cfg(feature = "flac")] let data = match flac::FlacDecoder::new(data)`.
`Err(data) => data` rebinds the returned source and control continues
with the Vorbis stage; `Ok(decoder)` returns at once. -/
def Decoder.newStageFlac {R W F V : Type} (cfg : Features)
    (M : FormatModules R W F V) (data : R) :
    Except DecoderError (Decoder W F V) :=
  if cfg.flac then
    match M.flacNew data with
    | .error data => Decoder.newStageVorbis cfg M data
    | .ok decoder => .ok ⟨DecoderImpl.Flac decoder⟩
  else
    Decoder.newStageVorbis cfg M data

/-- `Decoder::new` (lines 45-71).  The WAV probe runs first
(`#[cfg(feature = "wav")]`, lines 46-52): on `Ok(decoder)` it returns
`Ok(Decoder(DecoderImpl::Wav(decoder)))` immediately, on `Err(data)` the
returned source value is rebound and handed to the FLAC stage. -/
def Decoder.new {R W F V : Type} (cfg : Features)
    (M : FormatModules R W F V) (data : R) :
    Except DecoderError (Decoder W F V) :=
  if cfg.wav then
    match M.wavNew data with
    | .error data => Decoder.newStageFlac cfg M data
    | .ok decoder => .ok ⟨DecoderImpl.Wav decoder⟩
  else
    Decoder.newStageFlac cfg M data

/-- `impl Iterator for Decoder`, `fn next` (lines 90-99): match on the
active variant, delegate to its decoder's `next`.  The `&mut self`
receiver is modelled by returning the successor decoder alongside the
item. -/
def Decoder.next {R W F V : Type} (M : FormatModules R W F V)
    (d : Decoder W F V) : Option Sample × Decoder W F V :=
  match d.impl with
  | DecoderImpl.Wav s =>
      let r := M.wavOps.next s
      (r.1, ⟨DecoderImpl.Wav r.2⟩)
  | DecoderImpl.Vorbis s =>
      let r := M.vorbisOps.next s
      (r.1, ⟨DecoderImpl.Vorbis r.2⟩)
  | DecoderImpl.Flac s =>
      let r := M.flacOps.next s
      (r.1, ⟨DecoderImpl.Flac r.2⟩)

/-- `fn size_hint` (lines 102-111): delegated verbatim (`&self`). -/
def Decoder.sizeHint {R W F V : Type} (M : FormatModules R W F V)
    (d : Decoder W F V) : Nat × Option Nat :=
  match d.impl with
  | DecoderImpl.Wav s => M.wavOps.sizeHint s
  | DecoderImpl.Vorbis s => M.vorbisOps.sizeHint s
  | DecoderImpl.Flac s => M.flacOps.sizeHint s

/-- `fn current_frame_len` (lines 129-138): delegated verbatim. -/
def Decoder.currentFrameLen {R W F V : Type} (M : FormatModules R W F V)
    (d : Decoder W F V) : Option Nat :=
  match d.impl with
  | DecoderImpl.Wav s => M.wavOps.currentFrameLen s
  | DecoderImpl.Vorbis s => M.vorbisOps.currentFrameLen s
  | DecoderImpl.Flac s => M.flacOps.currentFrameLen s

/-- `fn channels` (lines 141-150): delegated verbatim. -/
def Decoder.channels {R W F V : Type} (M : FormatModules R W F V)
    (d : Decoder W F V) : Nat :=
  match d.impl with
  | DecoderImpl.Wav s => M.wavOps.channels s
  | DecoderImpl.Vorbis s => M.vorbisOps.channels s
  | DecoderImpl.Flac s => M.flacOps.channels s

/-- `fn samples_rate` (lines 153-162): delegated verbatim. -/
def Decoder.samplesRate {R W F V : Type} (M : FormatModules R W F V)
    (d : Decoder W F V) : Nat :=
  match d.impl with
  | DecoderImpl.Wav s => M.wavOps.samplesRate s
  | DecoderImpl.Vorbis s => M.vorbisOps.samplesRate s
  | DecoderImpl.Flac s => M.flacOps.samplesRate s

/-- `fn total_duration` (lines 165-174): delegated verbatim. -/
def Decoder.totalDuration {R W F V : Type} (M : FormatModules R W F V)
    (d : Decoder W F V) : Option Duration :=
  match d.impl with
  | DecoderImpl.Wav s => M.wavOps.totalDuration s
  | DecoderImpl.Vorbis s => M.vorbisOps.totalDuration s
  | DecoderImpl.Flac s => M.flacOps.totalDuration s

/-- Which variant of the tagged union is active (the discriminant of
`DecoderImpl`). -/
inductive VariantTag where
  | wav : VariantTag
  | vorbis : VariantTag
  | flac : VariantTag
deriving DecidableEq

/-- Discriminant of a `DecoderImpl` value. -/
def DecoderImpl.tag {W F V : Type} : DecoderImpl W F V → VariantTag
  | DecoderImpl.Wav _ => VariantTag.wav
  | DecoderImpl.Vorbis _ => VariantTag.vorbis
  | DecoderImpl.Flac _ => VariantTag.flac

/-!
The build with no format features compiled in
(`#[cfg(not(any(feature = "wav", feature = "flac", feature = "vorbis")))]`).
`Decoder<R>` is then `pub struct Decoder<R>(PhantomData<R>)` (line 24);
`Decoder::new` (whose three cfg-gated probe statements are all absent)
is `Err(DecoderError::UnrecognizedFormat)`, and the `Iterator` and
`Source` impls (lines 74-81 and 114-122) return fixed values.
-/

/-- `pub struct Decoder<R>(PhantomData<R>)` (line 24), the no-feature
build's decoder type.  `PhantomData` carries no data. -/
structure DecoderNF (R : Type) where
  mk ::

/-- `Decoder::new` in the no-feature build (lines 45-71 with every
cfg-gated statement absent): unconditionally
`Err(DecoderError::UnrecognizedFormat)`. -/
def DecoderNF.new {R : Type} (_ : R) : Except DecoderError (DecoderNF R) :=
  .error .UnrecognizedFormat

/-- `fn next(&mut self) -> Option<i16> { None }` (line 80), no-feature
build. -/
def DecoderNF.next {R : Type} (d : DecoderNF R) : Option Sample × DecoderNF R :=
  (none, d)

/-- `fn current_frame_len(&self) -> Option<usize> { Some(0) }`
(line 118), no-feature build. -/
def DecoderNF.currentFrameLen {R : Type} (_ : DecoderNF R) : Option Nat :=
  some 0

/-- `fn channels(&self) -> u16 { 0 }` (line 119), no-feature build. -/
def DecoderNF.channels {R : Type} (_ : DecoderNF R) : Nat :=
  0

/-- `fn samples_rate(&self) -> u32 { 1 }` (line 120), no-feature
build. -/
def DecoderNF.samplesRate {R : Type} (_ : DecoderNF R) : Nat :=
  1

/-- `fn total_duration(&self) -> Option<Duration> { Some(Duration::default()) }`
(line 121), no-feature build. -/
def DecoderNF.totalDuration {R : Type} (_ : DecoderNF R) : Option Duration :=
  some 0

/-!  Concrete instantiations used by the witness theorems. -/

/-- Capability record on `Unit` whose stream is empty; used to
instantiate the abstract format modules at concrete types. -/
def unitOps : SourceOps Unit :=
  ⟨fun s => (none, s), fun _ => (0, none), fun _ => none,
   fun _ => 1, fun _ => 1, fun _ => none⟩

/-- Format modules over `R = Nat` in which every probe rejects its
input, returning the source unchanged. -/
def rejectAllModules : FormatModules Nat Unit Unit Unit :=
  ⟨fun r => .error r, fun r => .error r, fun r => .error r,
   unitOps, unitOps, unitOps⟩

/-- Format modules over `R = Nat` in which every probe accepts. -/
def acceptAllModules : FormatModules Nat Unit Unit Unit :=
  ⟨fun _ => .ok (), fun _ => .ok (), fun _ => .ok (),
   unitOps, unitOps, unitOps⟩

/-- Format modules in which the WAV probe rejects (returning its input
unchanged) and FLAC and Vorbis accept. -/
def wavRejectsModules : FormatModules Nat Unit Unit Unit :=
  ⟨fun r => .error r, fun _ => .ok (), fun _ => .ok (),
   unitOps, unitOps, unitOps⟩

/-- The all-features build configuration. -/
def allFeatures : Features := ⟨true, true, true⟩

/-- Helper: the Vorbis stage fails with `UnrecognizedFormat` when the
Vorbis probe rejects (or the feature is off). -/
lemma newStageVorbis_reject {R W F V : Type} (cfg : Features)
    (M : FormatModules R W F V) (d2 : R)
    (hv : if cfg.vorbis = true then ∃ d3, M.vorbisNew d2 = .error d3 else True) :
    Decoder.newStageVorbis cfg M d2 = .error DecoderError.UnrecognizedFormat := by
  unfold Decoder.newStageVorbis
  by_cases hcv : cfg.vorbis = true
  · simp only [hcv, if_true] at hv ⊢
    obtain ⟨d3, h3⟩ := hv
    simp [h3]
  · simp [hcv]

/-- Helper: the FLAC stage fails with `UnrecognizedFormat` when the
FLAC probe rejects with residue `d2` (or the feature is off and
`d1 = d2`) and the Vorbis stage rejects `d2`. -/
lemma newStageFlac_reject {R W F V : Type} (cfg : Features)
    (M : FormatModules R W F V) (d1 d2 : R)
    (hf : if cfg.flac = true then M.flacNew d1 = .error d2 else d1 = d2)
    (hv : if cfg.vorbis = true then ∃ d3, M.vorbisNew d2 = .error d3 else True) :
    Decoder.newStageFlac cfg M d1 = .error DecoderError.UnrecognizedFormat := by
  unfold Decoder.newStageFlac
  by_cases hcf : cfg.flac = true
  · simp only [hcf, if_true] at hf ⊢
    simp [hf, newStageVorbis_reject cfg M d2 hv]
  · simp only [hcf, if_false] at hf
    subst hf
    simp [hcf, newStageVorbis_reject cfg M d1 hv]

/-- C1: if every compiled-in probe rejects the source value it is
handed (the WAV probe rejecting `data` with residue `d1`, the FLAC
probe rejecting `d1` with residue `d2`, the Vorbis probe rejecting
`d2`; a stage whose feature is off merely passes the value through),
then `Decoder::new` returns `Err(DecoderError::UnrecognizedFormat)`;
the error is the function's result, handed to the caller, not recovered
internally. -/
theorem decoder_new_all_probes_reject {R W F V : Type} (cfg : Features)
    (M : FormatModules R W F V) (data d1 d2 : R)
    (hw : if cfg.wav = true then M.wavNew data = .error d1 else data = d1)
    (hf : if cfg.flac = true then M.flacNew d1 = .error d2 else d1 = d2)
    (hv : if cfg.vorbis = true then ∃ d3, M.vorbisNew d2 = .error d3 else True) :
    Decoder.new cfg M data = .error DecoderError.UnrecognizedFormat := by
  unfold Decoder.new
  by_cases hcw : cfg.wav = true
  · simp only [hcw, if_true] at hw ⊢
    simp [hw, newStageFlac_reject cfg M d1 d2 hf hv]
  · simp only [hcw, if_false] at hw
    subst hw
    simp [hcw, newStageFlac_reject cfg M data d2 hf hv]

/-- Witness for C1 at a concrete input: all-features build, probes that
reject every input, source `0`. -/
theorem decoder_new_all_probes_reject_witness :
    Decoder.new allFeatures rejectAllModules 0 =
      .error DecoderError.UnrecognizedFormat :=
  decoder_new_all_probes_reject allFeatures rejectAllModules 0 0 0
    (by simp [allFeatures, rejectAllModules])
    (by simp [allFeatures, rejectAllModules])
    (by exact ⟨0, rfl⟩)

/-- C2: the probes run in the fixed priority order WAV, FLAC, Vorbis,
and the earliest compiled-in probe that accepts wins: its decoder is
wrapped as the corresponding tagged-union variant and construction
succeeds.  The format modules `M` are universally quantified and each
conjunct constrains only the probes up to the winner, so the result is
independent of every later probe — in particular, a source accepted by
two or more formats yields the variant of the earliest accepting probe,
and no later probe influences the outcome. -/
theorem decoder_new_priority_order {R W F V : Type} (cfg : Features)
    (M : FormatModules R W F V) (data : R) :
    (∀ w, cfg.wav = true → M.wavNew data = .ok w →
        Decoder.new cfg M data = .ok ⟨DecoderImpl.Wav w⟩) ∧
    (∀ d1 f, cfg.flac = true →
        (if cfg.wav = true then M.wavNew data = .error d1 else data = d1) →
        M.flacNew d1 = .ok f →
        Decoder.new cfg M data = .ok ⟨DecoderImpl.Flac f⟩) ∧
    (∀ d1 d2 v, cfg.vorbis = true →
        (if cfg.wav = true then M.wavNew data = .error d1 else data = d1) →
        (if cfg.flac = true then M.flacNew d1 = .error d2 else d1 = d2) →
        M.vorbisNew d2 = .ok v →
        Decoder.new cfg M data = .ok ⟨DecoderImpl.Vorbis v⟩) := by
  refine ⟨?_, ?_, ?_⟩
  · intro w hcw hacc
    unfold Decoder.new
    simp [hcw, hacc]
  · intro d1 f hcf hw hacc
    unfold Decoder.new Decoder.newStageFlac
    by_cases hcw : cfg.wav = true
    · simp only [hcw, if_true] at hw ⊢
      simp [hw, hcf, hacc]
    · simp only [hcw, if_false] at hw
      subst hw
      simp [hcw, hcf, hacc]
  · intro d1 d2 v hcv hw hf hacc
    unfold Decoder.new Decoder.newStageFlac Decoder.newStageVorbis
    by_cases hcw : cfg.wav = true <;>
      by_cases hcf : cfg.flac = true <;>
        simp only [hcw, hcf, if_true, if_false] at hw hf ⊢ <;>
          subst_vars <;>
            simp_all

/-- Witness for C2 at a concrete input: all three features compiled in,
probes that all accept the source `0` (a source accepted by more than
one format); the WAV probe, earliest in the order, wins. -/
theorem decoder_new_priority_order_witness :
    Decoder.new allFeatures acceptAllModules 0 =
      .ok ⟨DecoderImpl.Wav ()⟩ :=
  (decoder_new_priority_order allFeatures acceptAllModules 0).1 () rfl rfl

/-- C5: when a compiled-in probe rejects, `Decoder::new` continues with
exactly the source value carried by the probe's rejection (`Err(data)`
rebinds `data`), handing it unchanged to the next stage; when a stage's
feature is off, the value is passed through untouched.  The dispatcher
performs no operation of its own on the source between probes. -/
theorem decoder_new_threads_rejected_source {R W F V : Type}
    (cfg : Features) (M : FormatModules R W F V) :
    (∀ data d, cfg.wav = true → M.wavNew data = .error d →
        Decoder.new cfg M data = Decoder.newStageFlac cfg M d) ∧
    (∀ data, cfg.wav = false →
        Decoder.new cfg M data = Decoder.newStageFlac cfg M data) ∧
    (∀ d d', cfg.flac = true → M.flacNew d = .error d' →
        Decoder.newStageFlac cfg M d = Decoder.newStageVorbis cfg M d') ∧
    (∀ d, cfg.flac = false →
        Decoder.newStageFlac cfg M d = Decoder.newStageVorbis cfg M d) := by
  refine ⟨?_, ?_, ?_, ?_⟩
  · intro data d hcw hrej
    unfold Decoder.new
    simp [hcw, hrej]
  · intro data hcw
    unfold Decoder.new
    simp [hcw]
  · intro d d' hcf hrej
    unfold Decoder.newStageFlac
    simp [hcf, hrej]
  · intro d hcf
    unfold Decoder.newStageFlac
    simp [hcf]

/-- Witness for C5 at a concrete input: the WAV probe of
`wavRejectsModules` rejects `0` returning it unchanged, and
construction continues from the FLAC stage applied to that exact
value. -/
theorem decoder_new_threads_rejected_source_witness :
    Decoder.new allFeatures wavRejectsModules 0 =
      Decoder.newStageFlac allFeatures wavRejectsModules 0 :=
  (decoder_new_threads_rejected_source allFeatures wavRejectsModules).1
    0 0 rfl rfl

/-- C6: `next` delegates to the active variant's decoder and returns
exactly its result: the produced item is the underlying decoder's item
unchanged (in particular `None`, end-of-stream, is propagated as-is),
and the successor state is the underlying decoder's successor state
re-wrapped in the same variant — the dispatcher keeps no buffer and
performs no look-ahead, as the result of one call depends only on one
call to the underlying decoder. -/
theorem decoder_next_delegates {R W F V : Type}
    (M : FormatModules R W F V) :
    (∀ s : W, Decoder.next M ⟨DecoderImpl.Wav s⟩ =
        ((M.wavOps.next s).1, ⟨DecoderImpl.Wav (M.wavOps.next s).2⟩)) ∧
    (∀ s : V, Decoder.next M ⟨DecoderImpl.Vorbis s⟩ =
        ((M.vorbisOps.next s).1, ⟨DecoderImpl.Vorbis (M.vorbisOps.next s).2⟩)) ∧
    (∀ s : F, Decoder.next M ⟨DecoderImpl.Flac s⟩ =
        ((M.flacOps.next s).1, ⟨DecoderImpl.Flac (M.flacOps.next s).2⟩)) :=
  ⟨fun _ => rfl, fun _ => rfl, fun _ => rfl⟩

/-- C7: each of the four stream-metadata accessors delegates verbatim
to the active variant's decoder on every call.  The accessors are pure
functions of the decoder's current state (nothing is cached in the
dispatcher), so the value returned is whatever the active decoder
reports at the moment of the call. -/
theorem decoder_metadata_delegates {R W F V : Type}
    (M : FormatModules R W F V) :
    (∀ s : W,
        Decoder.currentFrameLen M ⟨DecoderImpl.Wav s⟩ = M.wavOps.currentFrameLen s ∧
        Decoder.channels M ⟨DecoderImpl.Wav s⟩ = M.wavOps.channels s ∧
        Decoder.samplesRate M ⟨DecoderImpl.Wav s⟩ = M.wavOps.samplesRate s ∧
        Decoder.totalDuration M ⟨DecoderImpl.Wav s⟩ = M.wavOps.totalDuration s) ∧
    (∀ s : V,
        Decoder.currentFrameLen M ⟨DecoderImpl.Vorbis s⟩ = M.vorbisOps.currentFrameLen s ∧
        Decoder.channels M ⟨DecoderImpl.Vorbis s⟩ = M.vorbisOps.channels s ∧
        Decoder.samplesRate M ⟨DecoderImpl.Vorbis s⟩ = M.vorbisOps.samplesRate s ∧
        Decoder.totalDuration M ⟨DecoderImpl.Vorbis s⟩ = M.vorbisOps.totalDuration s) ∧
    (∀ s : F,
        Decoder.currentFrameLen M ⟨DecoderImpl.Flac s⟩ = M.flacOps.currentFrameLen s ∧
        Decoder.channels M ⟨DecoderImpl.Flac s⟩ = M.flacOps.channels s ∧
        Decoder.samplesRate M ⟨DecoderImpl.Flac s⟩ = M.flacOps.samplesRate s ∧
        Decoder.totalDuration M ⟨DecoderImpl.Flac s⟩ = M.flacOps.totalDuration s) :=
  ⟨fun _ => ⟨rfl, rfl, rfl, rfl⟩,
   fun _ => ⟨rfl, rfl, rfl, rfl⟩,
   fun _ => ⟨rfl, rfl, rfl, rfl⟩⟩

/-- Iterating `next` `n` times from a decoder: the decoder state after
`n` calls of the sample iterator, modelling the decoder's use over its
lifetime (`size_hint` and the metadata accessors take the decoder
immutably and produce no successor state, so `next` is the only
state-changing operation). -/
def Decoder.nextN {R W F V : Type} (M : FormatModules R W F V) :
    Nat → Decoder W F V → Decoder W F V
  | 0, d => d
  | n + 1, d => Decoder.nextN M n (Decoder.next M d).2

/-- Helper: one `next` step preserves the active variant. -/
lemma decoder_next_preserves_tag {R W F V : Type}
    (M : FormatModules R W F V) (d : Decoder W F V) :
    ((Decoder.next M d).2).impl.tag = d.impl.tag := by
  obtain ⟨impl⟩ := d
  cases impl <;> rfl

/-- C8: the active tagged-union variant chosen at construction never
changes: a single `next` call preserves the variant, and hence any
number of `next` calls does; `size_hint` and the metadata accessors
take the decoder immutably (`&self`) and cannot replace the variant. -/
theorem decoder_variant_never_changes {R W F V : Type}
    (M : FormatModules R W F V) :
    (∀ d : Decoder W F V, ((Decoder.next M d).2).impl.tag = d.impl.tag) ∧
    (∀ (n : Nat) (d : Decoder W F V),
        (Decoder.nextN M n d).impl.tag = d.impl.tag) := by
  refine ⟨decoder_next_preserves_tag M, ?_⟩
  intro n
  induction n with
  | zero => intro d; rfl
  | succ m ih =>
      intro d
      calc (Decoder.nextN M (m + 1) d).impl.tag
          = ((Decoder.next M d).2).impl.tag := ih (Decoder.next M d).2
        _ = d.impl.tag := decoder_next_preserves_tag M d

/-- C9: construction is deterministic.  `Decoder::new` is a pure
function of the compiled-in feature set, the probes, and the source, so
two runs on the same inputs produce equal results: both select the very
same variant, or both fail with the same (necessarily
`UnrecognizedFormat`) error. -/
theorem decoder_new_deterministic {R W F V : Type} (cfg : Features)
    (M : FormatModules R W F V) (data : R)
    (r1 r2 : Except DecoderError (Decoder W F V))
    (h1 : Decoder.new cfg M data = r1) (h2 : Decoder.new cfg M data = r2) :
    r1 = r2 ∧
    (∀ d1 d2, r1 = .ok d1 → r2 = .ok d2 → d1.impl.tag = d2.impl.tag) ∧
    (∀ e1 e2, r1 = .error e1 → r2 = .error e2 → e1 = e2) := by
  subst h1
  subst h2
  refine ⟨rfl, ?_, ?_⟩
  · intro d1 d2 hd1 hd2
    rw [hd1] at hd2
    injection hd2 with h
    rw [h]
  · intro e1 e2 he1 he2
    cases e1
    cases e2
    rfl

/-- Witness for C9 at a concrete input: two runs on the all-features
build with probes that all accept and source `0` return the same
result. -/
theorem decoder_new_deterministic_witness :
    (Except.ok ⟨DecoderImpl.Wav ()⟩ :
        Except DecoderError (Decoder Unit Unit Unit)) =
      Except.ok ⟨DecoderImpl.Wav ()⟩ :=
  (decoder_new_deterministic allFeatures acceptAllModules 0
    (.ok ⟨DecoderImpl.Wav ()⟩) (.ok ⟨DecoderImpl.Wav ()⟩) rfl rfl).1

/-- C3: in the build with no format features compiled in, the `Decoder`
type still exists (`DecoderNF`) and signals the no-format condition
everywhere: construction always fails with
`DecoderError::UnrecognizedFormat`, the sample iterator is empty
(`next` always yields nothing), and every metadata query returns a
fixed, state-independent degenerate value — zero channels, dummy sample
rate `1`, an empty current frame (`Some(0)`), and a zero total
duration. -/
theorem decoderNF_signals_no_format (R : Type) :
    (∀ data : R, DecoderNF.new data = .error DecoderError.UnrecognizedFormat) ∧
    (∀ d : DecoderNF R, (DecoderNF.next d).1 = none) ∧
    (∀ d : DecoderNF R,
        DecoderNF.channels d = 0 ∧
        DecoderNF.samplesRate d = 1 ∧
        DecoderNF.currentFrameLen d = some 0 ∧
        DecoderNF.totalDuration d = some 0) :=
  ⟨fun _ => rfl, fun _ => rfl, fun _ => ⟨rfl, rfl, rfl, rfl⟩⟩

/-- C10: in the build with no format features compiled in, every `next`
call returns `None` and leaves the decoder unchanged: the sample
sequence of the degenerate decoder is empty. -/
theorem decoderNF_next_always_none (R : Type) :
    ∀ d : DecoderNF R, DecoderNF.next d = (none, d) :=
  fun _ => rfl

/-- C4 counterexample: in the no-feature build, `channels()` returns
`0` (src/decoder/mod.rs line 119), which is not a positive integer —
refuting the claim that `channels()` is positive in every build
configuration. -/
theorem decoderNF_channels_zero_counterexample :
    ¬ (0 < DecoderNF.channels (DecoderNF.mk : DecoderNF Unit)) := by
  decide

/-- C4 amended: in feature builds, `channels()` and `samples_rate()`
are positive whenever the active format decoder reports positive
values (they delegate verbatim); in the degenerate no-feature build,
`samples_rate()` is the positive constant `1`, but `channels()` is
`0`. -/
theorem decoder_channels_samplesRate_positive {R W F V : Type}
    (M : FormatModules R W F V) (d : Decoder W F V)
    (hw : ∀ s : W, 0 < M.wavOps.channels s ∧ 0 < M.wavOps.samplesRate s)
    (hf : ∀ s : F, 0 < M.flacOps.channels s ∧ 0 < M.flacOps.samplesRate s)
    (hv : ∀ s : V, 0 < M.vorbisOps.channels s ∧ 0 < M.vorbisOps.samplesRate s) :
    (0 < Decoder.channels M d ∧ 0 < Decoder.samplesRate M d) ∧
    (∀ (S : Type) (dn : DecoderNF S),
        0 < DecoderNF.samplesRate dn ∧ DecoderNF.channels dn = 0) := by
  refine ⟨?_, fun S dn => ⟨Nat.zero_lt_one, rfl⟩⟩
  obtain ⟨impl⟩ := d
  cases impl with
  | Wav s => exact ⟨(hw s).1, (hw s).2⟩
  | Vorbis s => exact ⟨(hv s).1, (hv s).2⟩
  | Flac s => exact ⟨(hf s).1, (hf s).2⟩

/-- Witness for the amended C4 at a concrete input: the `unitOps`
capability record reports one channel at sample rate `1`. -/
theorem decoder_channels_samplesRate_positive_witness :
    (0 < Decoder.channels rejectAllModules ⟨DecoderImpl.Wav ()⟩ ∧
     0 < Decoder.samplesRate rejectAllModules ⟨DecoderImpl.Wav ()⟩) ∧
    (∀ (S : Type) (dn : DecoderNF S),
        0 < DecoderNF.samplesRate dn ∧ DecoderNF.channels dn = 0) :=
  decoder_channels_samplesRate_positive rejectAllModules ⟨DecoderImpl.Wav ()⟩
    (fun _ => ⟨Nat.zero_lt_one, Nat.zero_lt_one⟩)
    (fun _ => ⟨Nat.zero_lt_one, Nat.zero_lt_one⟩)
    (fun _ => ⟨Nat.zero_lt_one, Nat.zero_lt_one⟩)
